import Mathlib

/-!
Verification of the identity-and-trust subsystem of the slack-bot service.

The definitions below are a shallow embedding of the JavaScript source:

* `src/services/azureAuthService.js` — session-token issuance/verification
  (`generateJWT`, `verifyJWT`), the revocation gate (`validateToken`),
  permission evaluation (`checkUserPermission`) and service start-up
  (`initialize`);
* `src/routes/auth.js` — the `requireAuth` middleware and the OAuth
  callback handler (`router.get('/callback')`);
* `src/services/slackService.js` — webhook signature verification
  (`verifyWebhookSignature`), including a full executable model of the
  HMAC-SHA256 primitive it calls (`crypto.createHmac('sha256', …)`) and of
  Node's `crypto.timingSafeEqual`;
* `src/routes/slack.js` — the `verifySlackSignature` middleware, which
  feeds `JSON.stringify(req.body)` to the verifier and calls the `async`
  verifier without `await`, leaving its 401-on-invalid branch dead.

Byte strings are `List Nat` with entries < 256; machine words are `Nat`
truncated with `% 2^32` where the algorithm requires it.
-/

namespace SlackBot

/-- Truncate to a 32-bit word, as every SHA-256 step does implicitly. -/
def w32 (x : Nat) : Nat := x % 4294967296

/-- 32-bit right rotation. -/
def rotr (n x : Nat) : Nat := w32 ((x >>> n) ||| (x <<< (32 - n)))

/-- Big-endian byte serialisation of `v` into `n` bytes. -/
def beBytes (n v : Nat) : List Nat :=
  (List.range n).map (fun i => (v >>> (8 * (n - 1 - i))) % 256)

/-- Split a list into chunks of `n` elements; `fuel` bounds recursion depth. -/
def chunkList : Nat → Nat → List Nat → List (List Nat)
  | 0, _, _ => []
  | _, _, [] => []
  | fuel + 1, n, l => l.take n :: chunkList fuel n (l.drop n)

/-- UTF-8 bytes of a string; the inputs considered here are ASCII, where the
code points are the bytes, matching Node's `Buffer.from(s)`. -/
def strBytes (s : String) : List Nat := s.data.map Char.toNat

/-- Lowercase hex digit for a nibble, as produced by Node's `digest('hex')`. -/
def hexDigit (n : Nat) : Nat := if n < 10 then 48 + n else 87 + n

/-- Lowercase hex encoding of a byte string, as a byte string of ASCII chars. -/
def hexBytes (bs : List Nat) : List Nat :=
  bs.flatMap (fun b => [hexDigit (b / 16), hexDigit (b % 16)])

/-! ## SHA-256 (FIPS 180-4), the primitive behind `crypto.createHmac` -/

/-- SHA-256 `Ch` function. -/
def shaCh (x y z : Nat) : Nat := (x &&& y) ^^^ ((x ^^^ 4294967295) &&& z)

/-- SHA-256 `Maj` function. -/
def shaMaj (x y z : Nat) : Nat := (x &&& y) ^^^ (x &&& z) ^^^ (y &&& z)

/-- SHA-256 Σ0. -/
def bsig0 (x : Nat) : Nat := rotr 2 x ^^^ rotr 13 x ^^^ rotr 22 x

/-- SHA-256 Σ1. -/
def bsig1 (x : Nat) : Nat := rotr 6 x ^^^ rotr 11 x ^^^ rotr 25 x

/-- SHA-256 σ0. -/
def ssig0 (x : Nat) : Nat := rotr 7 x ^^^ rotr 18 x ^^^ (x >>> 3)

/-- SHA-256 σ1. -/
def ssig1 (x : Nat) : Nat := rotr 17 x ^^^ rotr 19 x ^^^ (x >>> 10)

/-- The 64 SHA-256 round constants. -/
def shaK : List Nat :=
  [1116352408, 1899447441, 3049323471, 3921009573, 961987163,
   1508970993, 2453635748, 2870763221, 3624381080, 310598401,
   607225278, 1426881987, 1925078388, 2162078206, 2614888103,
   3248222580, 3835390401, 4022224774, 264347078, 604807628,
   770255983, 1249150122, 1555081692, 1996064986, 2554220882,
   2821834349, 2952996808, 3210313671, 3336571891, 3584528711,
   113926993, 338241895, 666307205, 773529912, 1294757372,
   1396182291, 1695183700, 1986661051, 2177026350, 2456956037,
   2730485921, 2820302411, 3259730800, 3345764771, 3516065817,
   3600352804, 4094571909, 275423344, 430227734, 506948616,
   659060556, 883997877, 958139571, 1322822218, 1537002063,
   1747873779, 1955562222, 2024104815, 2227730452, 2361852424,
   2428436474, 2756734187, 3204031479, 3329325298]

/-- The eight working variables of the SHA-256 compression function. -/
structure Hash8 where
  a : Nat
  b : Nat
  c : Nat
  d : Nat
  e : Nat
  f : Nat
  g : Nat
  h : Nat
deriving Repr, DecidableEq

/-- SHA-256 initial hash value. -/
def shaH0 : Hash8 :=
  ⟨1779033703, 3144134277, 1013904242, 2773480762,
   1359893119, 2600822924, 528734635, 1541459225⟩

/-- Big-endian 32-bit words of a 64-byte block. -/
def bytesToWords (l : List Nat) : List Nat :=
  (chunkList (l.length + 1) 4 l).map (List.foldl (fun a b => a * 256 + b) 0)

/-- Extend the 16 block words to the 64-entry message schedule. -/
def msgSchedule (block : List Nat) : List Nat :=
  (List.range 48).foldl
    (fun ws _ =>
      ws ++ [w32 (ssig1 (ws.getD (ws.length - 2) 0) + ws.getD (ws.length - 7) 0 +
                  ssig0 (ws.getD (ws.length - 15) 0) + ws.getD (ws.length - 16) 0)])
    (bytesToWords block)

/-- One round of the SHA-256 compression function. -/
def shaRound (s : Hash8) (kw : Nat × Nat) : Hash8 :=
  let t1 := w32 (s.h + bsig1 s.e + shaCh s.e s.f s.g + kw.1 + kw.2)
  let t2 := w32 (bsig0 s.a + shaMaj s.a s.b s.c)
  ⟨w32 (t1 + t2), s.a, s.b, s.c, w32 (s.d + t1), s.e, s.f, s.g⟩

/-- Compress one 64-byte block into the running hash state. -/
def compressBlock (H : Hash8) (block : List Nat) : Hash8 :=
  let fin := (shaK.zip (msgSchedule block)).foldl shaRound H
  ⟨w32 (H.a + fin.a), w32 (H.b + fin.b), w32 (H.c + fin.c), w32 (H.d + fin.d),
   w32 (H.e + fin.e), w32 (H.f + fin.f), w32 (H.g + fin.g), w32 (H.h + fin.h)⟩

/-- SHA-256 padding: append `0x80`, zeros to 56 mod 64, then the 64-bit
big-endian bit length. -/
def padMsg (msg : List Nat) : List Nat :=
  msg ++ [128] ++ List.replicate ((119 - msg.length % 64) % 64) 0 ++
    beBytes 8 (msg.length * 8)

/-- Serialise the final state as the 32-byte digest. -/
def digestBytes (H : Hash8) : List Nat :=
  beBytes 4 H.a ++ beBytes 4 H.b ++ beBytes 4 H.c ++ beBytes 4 H.d ++
  beBytes 4 H.e ++ beBytes 4 H.f ++ beBytes 4 H.g ++ beBytes 4 H.h

/-- SHA-256 of a byte string. -/
def sha256 (msg : List Nat) : List Nat :=
  digestBytes ((chunkList ((padMsg msg).length + 1) 64 (padMsg msg)).foldl
    compressBlock shaH0)

/-- HMAC-SHA256 (RFC 2104) with a 64-byte block size, the computation Node's
`crypto.createHmac('sha256', key).update(msg).digest()` performs. -/
def hmacSHA256 (key msg : List Nat) : List Nat :=
  let k0 := if key.length > 64 then sha256 key else key
  let kp := k0 ++ List.replicate (64 - k0.length) 0
  sha256 ((kp.map (fun b => b ^^^ 92)) ++
    sha256 ((kp.map (fun b => b ^^^ 54)) ++ msg))

/-! ## Node's `crypto.timingSafeEqual` and
`SlackService.verifyWebhookSignature` (`src/services/slackService.js`) -/

/-- Node's `crypto.timingSafeEqual(a, b)`: throws a `RangeError` when the
buffers have different byte lengths; otherwise compares them in constant time
by OR-accumulating the XOR of every byte pair — it never short-circuits. -/
def timingSafeEqual (a b : List Nat) : Except String Bool :=
  if a.length = b.length then
    .ok (((a.zip b).foldl (fun acc p => acc ||| (p.1 ^^^ p.2)) 0) == 0)
  else .error "ERR_CRYPTO_TIMING_SAFE_EQUAL_LENGTH"

/-- The signature base string `"v0:" + timestamp + ":" + body`. -/
def baseString (ts body : List Nat) : List Nat :=
  strBytes "v0:" ++ ts ++ strBytes ":" ++ body

/-- The `expectedSignature` local of `verifyWebhookSignature`:
`'v0=' + hmacSha256(secret, baseString).digest('hex')`. -/
def expectedSignatureBytes (secret ts body : List Nat) : List Nat :=
  strBytes "v0=" ++ hexBytes (hmacSHA256 secret (baseString ts body))

/-- `SlackService.verifyWebhookSignature(signature, timestamp, body)`: builds
the expected signature and compares with `crypto.timingSafeEqual`; the
enclosing `try/catch` turns any thrown error (length mismatch) into `false`.
The function never consults the current time. -/
def verifyWebhookSignature (secret sig ts body : List Nat) : Bool :=
  match timingSafeEqual sig (expectedSignatureBytes secret ts body) with
  | .ok b => b
  | .error _ => false

/-! ## JSON values and the `verifySlackSignature` middleware
(`src/routes/slack.js`) -/

/-- A flat JSON value as relevant to the webhook bodies considered here. -/
inductive JVal where
  | jnum (n : Nat)
  | jstr (s : String)
deriving DecidableEq, Repr

/-- A flat JSON object: the shape of `req.body` for the requests considered. -/
abbrev JObj := List (String × JVal)

/-- `JSON.stringify` on a flat value. -/
def stringifyVal : JVal → String
  | .jnum n => toString n
  | .jstr s => "\"" ++ s ++ "\""

/-- Join strings with commas, as `JSON.stringify` does between members. -/
def commaJoin : List String → String
  | [] => ""
  | x :: xs => xs.foldl (fun a s => a ++ "," ++ s) x

/-- `JSON.stringify` on a flat object: no whitespace is ever emitted. -/
def jsonStringify (o : JObj) : String :=
  "\x7b" ++ commaJoin (o.map (fun m => "\"" ++ m.1 ++ "\":" ++ stringifyVal m.2)) ++
    "\x7d"

/-- Whitespace characters `JSON.parse` skips between tokens. -/
def isJsonWs (c : Char) : Bool :=
  c == ' ' || c == '\n' || c == '\t' || c == '\r'

/-- Drop leading JSON whitespace. -/
def skipWs (cs : List Char) : List Char := cs.dropWhile isJsonWs

/-- Parse a JSON string literal without escapes. -/
def parseStringLit : List Char → Option (String × List Char)
  | '"' :: rest =>
    let content := rest.takeWhile (fun c => c != '"')
    match rest.drop content.length with
    | '"' :: rest2 => some (content.asString, rest2)
    | _ => none
  | _ => none

/-- Parse a JSON natural-number literal. -/
def parseNumLit (cs : List Char) : Option (Nat × List Char) :=
  let ds := cs.takeWhile Char.isDigit
  if ds.isEmpty then none
  else some (ds.foldl (fun a c => a * 10 + (c.toNat - 48)) 0, cs.drop ds.length)

/-- Parse a flat JSON value. -/
def parseVal (cs : List Char) : Option (JVal × List Char) :=
  match cs with
  | '"' :: _ => (parseStringLit cs).map (fun p => (.jstr p.1, p.2))
  | _ => (parseNumLit cs).map (fun p => (.jnum p.1, p.2))

/-- Parse the members of a flat JSON object up to the closing brace. -/
def parseMembers : Nat → List Char → Option (JObj × List Char)
  | 0, _ => none
  | fuel + 1, cs =>
    match parseStringLit (skipWs cs) with
    | none => none
    | some (k, r1) =>
      match skipWs r1 with
      | ':' :: r2 =>
        match parseVal (skipWs r2) with
        | none => none
        | some (v, r3) =>
          match skipWs r3 with
          | ',' :: r4 => (parseMembers fuel r4).map (fun p => ((k, v) :: p.1, p.2))
          | '\x7d' :: r4 => some ([(k, v)], r4)
          | _ => none
      | _ => none

/-- `JSON.parse` restricted to flat objects of string/number members — the
fragment `express.json()` exercises on the bodies considered here. -/
def jsonParseFlat (s : String) : Option JObj :=
  match skipWs s.data with
  | '\x7b' :: r =>
    match skipWs r with
    | '\x7d' :: r2 => if (skipWs r2).isEmpty then some [] else none
    | _ =>
      match parseMembers (s.length + 1) r with
      | some (o, rest) => if (skipWs rest).isEmpty then some o else none
      | none => none
  | _ => none

/-- Outcome of the `verifySlackSignature` middleware. -/
inductive MwResult where
  | unauthorized
  | passed
deriving DecidableEq, Repr

/-- A JavaScript Promise, as returned by calling an `async` function without
`await`: it wraps the eventual value but is itself an ordinary object. -/
structure JsPromise (α : Type) where
  value : α

/-- JS truthiness of a Promise: an object is always truthy, whatever value the
promise will eventually resolve to. -/
def JsPromise.truthy {α : Type} (_p : JsPromise α) : Bool := true

/-- The byte string the middleware feeds to the HMAC computation:
`body = JSON.stringify(req.body)` (`src/routes/slack.js` line 15), the
re-serialisation of the body already parsed by `express.json()` — the raw wire
bytes, which `app.js` configures no capture for, are unavailable here. -/
def hashedBodyBytes (reqBody : JObj) : List Nat := strBytes (jsonStringify reqBody)

/-- The `verifySlackSignature` middleware of `src/routes/slack.js`: it computes
`body = JSON.stringify(req.body)` and rejects when either header is missing.
It then calls the `async` method `SlackService.verifyWebhookSignature` WITHOUT
`await` (line 26), so `isValid` holds the returned Promise rather than its
boolean; a Promise is always truthy, hence the `if (!isValid)` 401 branch
never fires and the request proceeds whatever the signature. -/
def verifySlackSignature (secret : List Nat) (sigHeader tsHeader : Option (List Nat))
    (reqBody : JObj) : MwResult :=
  let body := hashedBodyBytes reqBody
  match sigHeader, tsHeader with
  | some sig, some ts =>
    let isValid : JsPromise Bool := ⟨verifyWebhookSignature secret sig ts body⟩
    if isValid.truthy = false then .unauthorized else .passed
  | _, _ => .unauthorized

/-! ## Session tokens (`azureAuthService.js`: `generateJWT`, `verifyJWT`) -/

/-- The environment variables `azureAuthService.js` reads; `none` models an
unset variable. -/
structure Env where
  AZURE_CLIENT_ID : Option String
  AZURE_CLIENT_SECRET : Option String
  AZURE_TENANT_ID : Option String
  JWT_SECRET : Option String
deriving DecidableEq

/-- The signing secret actually used by `generateJWT`/`verifyJWT`:
`process.env.JWT_SECRET || 'your-secret-key'`. -/
def jwtSecret (env : Env) : String := env.JWT_SECRET.getD "your-secret-key"

/-- `AzureAuthService.initialize`: throws unless all three Azure variables are
present; it performs no check on `JWT_SECRET`. -/
def initService (env : Env) : Except String Unit :=
  if env.AZURE_CLIENT_ID = none ∨ env.AZURE_CLIENT_SECRET = none ∨
     env.AZURE_TENANT_ID = none then
    .error "Azure AD configuration is incomplete. Please check environment variables."
  else .ok ()

/-- The claims `generateJWT` places in the token. -/
structure JwtPayload where
  userId : String
  email : String
  displayName : String
  azureId : String
  iat : Nat
  exp : Nat
  iss : String
  aud : String
deriving DecidableEq, Repr

/-- Deterministic byte serialisation of the claims, standing in for the
base64url JSON segment that `jsonwebtoken` signs. -/
def encodePayload (p : JwtPayload) : List Nat :=
  strBytes p.userId ++ [0] ++ strBytes p.email ++ [0] ++ strBytes p.displayName ++
    [0] ++ strBytes p.azureId ++ [0] ++ beBytes 8 p.iat ++ beBytes 8 p.exp ++
    strBytes p.iss ++ [0] ++ strBytes p.aud

/-- A signed session token: claims plus HS256 tag over their serialisation. -/
structure Token where
  payload : JwtPayload
  sig : List Nat
deriving DecidableEq, Repr

/-- `jwt.sign(payload, secret, algorithm HS256)`: the tag is HMAC-SHA256 of
the serialised claims under the secret. -/
def signToken (secret : String) (p : JwtPayload) : Token :=
  ⟨p, hmacSHA256 (strBytes secret) (encodePayload p)⟩

/-- A permission grant row (`user_permissions` table). -/
structure Grant where
  name : String
  isActive : Bool
  expiresAt : Option Nat
deriving DecidableEq, Repr

/-- A user row (`users` table) with its permission grants. -/
structure User where
  id : String
  email : String
  displayName : String
  azureId : String
  isActive : Bool
  permissions : List Grant
deriving DecidableEq, Repr

/-- `generateJWT(user)`: claims are the user's fields with `iat = now`,
`exp = now + 60*60*24` and the pinned issuer and audience, signed with
`jwtSecret env`. -/
def generateJWT (env : Env) (u : User) (now : Nat) : Token :=
  signToken (jwtSecret env)
    ⟨u.id, u.email, u.displayName, u.azureId, now, now + 60 * 60 * 24,
     "smart-slack-bot", "smart-slack-bot-users"⟩

/-- `verifyJWT(token)`: `jwt.verify` with pinned algorithm, issuer and
audience; returns the decoded claims, or `none` when the tag does not match
the secret, the issuer or audience differ, or the token is expired
(`now ≥ exp`). The `try/catch` in the source maps every failure to `null`. -/
def verifyJWT (env : Env) (t : Token) (now : Nat) : Option JwtPayload :=
  if t.sig = hmacSHA256 (strBytes (jwtSecret env)) (encodePayload t.payload) ∧
     t.payload.iss = "smart-slack-bot" ∧ t.payload.aud = "smart-slack-bot-users" ∧
     now < t.payload.exp
  then some t.payload else none

/-- `prisma.user.findUnique({ where: { id } })` over an in-memory table. -/
def findUser (db : List User) (uid : String) : Option User :=
  db.find? (fun u => u.id == uid)

/-- `AzureAuthService.validateToken`: decodes the token, rejects when the
decoded `exp` is truthy and in the past, then verifies the signature via
`verifyJWT`, then requires the referenced user to exist with
`isActive == true`. -/
def validateToken (env : Env) (db : List User) (t : Token) (now : Nat) : Bool :=
  if t.payload.exp ≠ 0 ∧ t.payload.exp < now then false
  else
    match verifyJWT env t now with
    | none => false
    | some v =>
      match findUser db v.userId with
      | none => false
      | some u => u.isActive

/-- Outcome of the `requireAuth` middleware of `src/routes/auth.js`. -/
inductive AuthDecision where
  | missingToken
  | invalidToken
  | accountRevoked
  | granted (claims : JwtPayload)
deriving DecidableEq, Repr

/-- The `requireAuth` middleware: 401 without a token; 401 (invalid) when
`verifyJWT` returns `null`; 401 (inactive or revoked) when `validateToken`
is false; otherwise the request proceeds with the decoded claims. -/
def requireAuth (env : Env) (db : List User) (tok : Option Token) (now : Nat) :
    AuthDecision :=
  match tok with
  | none => .missingToken
  | some t =>
    match verifyJWT env t now with
    | none => .invalidToken
    | some d => if validateToken env db t now then .granted d else .accountRevoked

/-- `AzureAuthService.checkUserPermission(userId, permission)`: false for a
missing user; otherwise true when some grant's name equals the permission or
some grant's name is `admin` — no other field of the grant is consulted. -/
def checkUserPermission (db : List User) (userId permission : String) : Bool :=
  match findUser db userId with
  | none => false
  | some u =>
    u.permissions.any (fun p => p.name == permission) ||
      u.permissions.any (fun p => p.name == "admin")

/-! ## The OAuth callback route (`src/routes/auth.js`, `router.get('/callback')`) -/

/-- Query parameters of the callback request. -/
structure CbQuery where
  error : Option String
  code : Option String
  state : Option String
deriving DecidableEq

/-- Outcome of the callback route. -/
inductive CbOutcome where
  | redirect (path : String)
  | success (jwtToken : Token)
deriving DecidableEq

/-- The callback handler: redirects on a provider error or a missing code,
otherwise exchanges the code (`handleAuthCallback`, abstracted as the
`exchange` function) and returns the minted session token. No server-side
record of issued state values exists, and `q.state` is read only for
logging. -/
def callbackHandler (exchange : String → Option Token) (q : CbQuery) : CbOutcome :=
  match q.error with
  | some e => .redirect ("/auth/error?error=" ++ e)
  | none =>
    match q.code with
    | none => .redirect "/auth/error?error=missing_code"
    | some c =>
      match exchange c with
      | some tok => .success tok
      | none => .redirect "/auth/error?error=callback_failed"

/-- A sequence of callback requests processed by the server: the handler
threads no state between requests (the source keeps none for CSRF), so the
outcomes are the independent per-request outcomes. -/
def processCallbacks (exchange : String → Option Token) (qs : List CbQuery) :
    List CbOutcome :=
  qs.map (callbackHandler exchange)

/-- Spec-side definition, for comparison with `checkUserPermission`: §3 of the
specification says a grant is effective only while `isActive` and `expiresAt`
is unset or in the future. -/
def effectiveGrantSpec (now : Nat) (g : Grant) : Bool :=
  g.isActive && (match g.expiresAt with | none => true | some t => now < t)

/-! ## Concrete instances used in witnesses and counterexamples -/

/-- Environment with every variable set. -/
def envFull : Env := ⟨some "cid", some "csec", some "tid", some "jwt-secret-1"⟩

/-- Environment with `JWT_SECRET` unset but the Azure variables present. -/
def envNoJwt : Env := ⟨some "cid", some "csec", some "tid", none⟩

/-- An active user with no grants. -/
def userA : User := ⟨"u1", "a@x.com", "Alice", "az1", true, []⟩

/-- The same user after revocation (`isActive` false). -/
def userRevoked : User := ⟨"u1", "a@x.com", "Alice", "az1", false, []⟩

/-- Store holding the active user. -/
def dbActive : List User := [userA]

/-- Store holding the revoked user. -/
def dbRevoked : List User := [userRevoked]

/-- A fixed issuance instant. -/
def nowC : Nat := 1000

/-- The token minted for `userA` at `nowC` under `envFull`. -/
def tokC : Token := generateJWT envFull userA nowC

/-- User whose only grant named `deploy` is inactive and expired. -/
def userStale : User :=
  ⟨"u5", "p@x.com", "Pat", "az5", true, [⟨"deploy", false, some 10⟩]⟩

/-- Store holding `userStale`. -/
def dbStale : List User := [userStale]

/-- Evaluation instant past the grant's `expiresAt`. -/
def nowStale : Nat := 100

/-- User holding only the `admin` grant. -/
def userAdmin : User := ⟨"u9", "adm@x.com", "Ada", "az9", true, [⟨"admin", true, none⟩]⟩

/-- Store holding `userAdmin`. -/
def dbAdmin : List User := [userAdmin]

/-- User holding one grant unrelated to `deploy` and no `admin` grant. -/
def userOther : User := ⟨"u9b", "o@x.com", "Omar", "az9b", true, [⟨"other", true, none⟩]⟩

/-- Store holding `userOther`. -/
def dbOther : List User := [userOther]

/-- A token for callback witnesses. -/
def tok0 : Token := generateJWT envFull userA 0

/-- Webhook secret used in concrete signature checks. -/
def wSecret : List Nat := strBytes "s0"

/-- Webhook timestamp bytes used in concrete signature checks. -/
def wTs : List Nat := strBytes "123"

/-- Webhook body bytes used in concrete signature checks. -/
def wBody : List Nat := strBytes "x"

/-- `wBody` with its single byte flipped. -/
def wBodyFlip : List Nat := strBytes "y"

/-- `wTs` with its last byte flipped. -/
def wTsFlip : List Nat := strBytes "124"

/-- The expected signature for `wSecret`/`wTs`/`wBody` with its first byte
flipped from `v` (118) to `w` (119). -/
def sigFlipC : List Nat := 119 :: (expectedSignatureBytes wSecret wTs wBody).drop 1

/-- Raw webhook body bytes as received on the wire: note the space. -/
def rawBodyC : String := "\x7b\"a\": 1\x7d"

/-- The value `express.json()` parses `rawBodyC` into. -/
def parsedBodyC : JObj := [("a", JVal.jnum 1)]

/-! ## Helper lemmas -/

/-- A bitwise OR is zero exactly when both operands are. -/
theorem lorEqZero (a b : Nat) : a ||| b = 0 ↔ a = 0 ∧ b = 0 := by
  constructor
  · intro h
    refine ⟨Nat.zero_of_testBit_eq_false fun i => ?_,
            Nat.zero_of_testBit_eq_false fun i => ?_⟩
    · have hb := congrArg (fun n => Nat.testBit n i) h
      simp only [Nat.testBit_lor, Nat.zero_testBit, Bool.or_eq_false_iff] at hb
      exact hb.1
    · have hb := congrArg (fun n => Nat.testBit n i) h
      simp only [Nat.testBit_lor, Nat.zero_testBit, Bool.or_eq_false_iff] at hb
      exact hb.2
  · rintro ⟨rfl, rfl⟩
    rfl

/-- The OR-of-XORs accumulator of `timingSafeEqual` vanishes exactly when the
accumulator was zero and the two equal-length lists agree pointwise. -/
theorem tseFold : ∀ (a b : List Nat) (acc : Nat), a.length = b.length →
    (((a.zip b).foldl (fun acc p => acc ||| (p.1 ^^^ p.2)) acc) = 0 ↔
      acc = 0 ∧ a = b)
  | [], [], acc, _ => by simp
  | [], _ :: _, _, h => by simp at h
  | _ :: _, [], _, h => by simp at h
  | x :: xs, y :: ys, acc, h => by
    simp only [List.zip_cons_cons, List.foldl_cons]
    rw [tseFold xs ys _ (by simpa using h)]
    rw [lorEqZero, Nat.xor_eq_zero]
    simp [and_assoc]

/-- On equal-length inputs the constant-time comparison decides equality. -/
theorem timingSafeEqual_ok_iff (a b : List Nat) (h : a.length = b.length) :
    timingSafeEqual a b = Except.ok true ↔ a = b := by
  unfold timingSafeEqual
  rw [if_pos h]
  simp only [Except.ok.injEq, beq_iff_eq]
  rw [tseFold a b 0 h]
  simp

/-- `verifyWebhookSignature` accepts exactly the expected signature bytes. -/
theorem verifyWebhook_true_iff (S T B sig : List Nat) :
    verifyWebhookSignature S sig T B = true ↔
      sig = expectedSignatureBytes S T B := by
  by_cases h : sig.length = (expectedSignatureBytes S T B).length
  · have hrw : verifyWebhookSignature S sig T B =
        (((sig.zip (expectedSignatureBytes S T B)).foldl
          (fun acc p => acc ||| (p.1 ^^^ p.2)) 0) == 0) := by
      unfold verifyWebhookSignature timingSafeEqual
      rw [if_pos h]
    rw [hrw, beq_iff_eq, tseFold _ _ 0 h]
    simp
  · have hrw : verifyWebhookSignature S sig T B = false := by
      unfold verifyWebhookSignature timingSafeEqual
      rw [if_neg h]
    rw [hrw]
    constructor
    · intro hh
      exact absurd hh (by simp)
    · intro hh
      exact absurd (congrArg List.length hh) h

/-- A claimed signature different from the expected one is rejected. -/
theorem verifyWebhook_false_of_ne (S T B sig : List Nat)
    (h : sig ≠ expectedSignatureBytes S T B) :
    verifyWebhookSignature S sig T B = false := by
  cases hb : verifyWebhookSignature S sig T B
  · rfl
  · exact absurd ((verifyWebhook_true_iff S T B sig).mp hb) h

/-- `beBytes` produces exactly `n` bytes. -/
theorem beBytes_length (n v : Nat) : (beBytes n v).length = n := by
  simp [beBytes]

/-- The serialised digest has 32 bytes. -/
theorem digestBytes_length (H : Hash8) : (digestBytes H).length = 32 := by
  simp [digestBytes, beBytes]

/-- SHA-256 digests have 32 bytes. -/
theorem sha256_length (msg : List Nat) : (sha256 msg).length = 32 :=
  digestBytes_length _

/-- HMAC-SHA256 digests have 32 bytes. -/
theorem hmacSHA256_length (k m : List Nat) : (hmacSHA256 k m).length = 32 :=
  sha256_length _

/-- Hex encoding doubles the length. -/
theorem hexBytes_length (bs : List Nat) : (hexBytes bs).length = 2 * bs.length := by
  induction bs with
  | nil => simp [hexBytes]
  | cons x xs ih =>
    simp only [hexBytes, List.flatMap_cons, List.length_append, List.length_cons,
      List.length_nil] at ih ⊢
    omega

/-- The expected signature has 67 bytes: `v0=` plus 64 hex characters. -/
theorem expectedSignatureBytes_length (S T B : List Nat) :
    (expectedSignatureBytes S T B).length = 67 := by
  unfold expectedSignatureBytes
  rw [List.length_append, hexBytes_length, hmacSHA256_length]
  rfl

/-- Every byte of `beBytes` is below 256. -/
theorem beBytes_mem_lt (n v : Nat) : ∀ x ∈ beBytes n v, x < 256 := by
  simp only [beBytes, List.mem_map, List.mem_range]
  rintro x ⟨i, _, rfl⟩
  exact Nat.mod_lt _ (by norm_num)

/-- Every byte of a digest is below 256. -/
theorem digestBytes_mem_lt (H : Hash8) : ∀ x ∈ digestBytes H, x < 256 := by
  simp only [digestBytes, List.mem_append]
  rintro x (((((((h | h) | h) | h) | h) | h) | h) | h) <;>
    exact beBytes_mem_lt _ _ _ h

/-- Every byte of a SHA-256 digest is below 256. -/
theorem sha256_mem_lt (msg : List Nat) : ∀ x ∈ sha256 msg, x < 256 :=
  digestBytes_mem_lt _

/-- Every byte of an HMAC digest is below 256. -/
theorem hmacSHA256_mem_lt (k m : List Nat) : ∀ x ∈ hmacSHA256 k m, x < 256 :=
  sha256_mem_lt _

/-- `hexDigit` is injective on nibbles. -/
theorem hexDigit_inj {a b : Nat} (ha : a < 16) (hb : b < 16)
    (h : hexDigit a = hexDigit b) : a = b := by
  unfold hexDigit at h
  split at h <;> split at h <;> omega

/-- Hex encoding is injective on byte strings. -/
theorem hexBytes_inj : ∀ {xs ys : List Nat}, (∀ x ∈ xs, x < 256) →
    (∀ y ∈ ys, y < 256) → hexBytes xs = hexBytes ys → xs = ys
  | [], [], _, _, _ => rfl
  | [], _ :: _, _, _, h => by simp [hexBytes] at h
  | _ :: _, [], _, _, h => by simp [hexBytes] at h
  | x :: xs, y :: ys, hx, hy, h => by
    simp only [hexBytes, List.flatMap_cons, List.cons_append, List.nil_append,
      List.cons.injEq] at h
    obtain ⟨h1, h2, h3⟩ := h
    have hxb : x < 256 := hx x (by simp)
    have hyb : y < 256 := hy y (by simp)
    have e1 : x / 16 = y / 16 :=
      hexDigit_inj (by omega) (by omega) h1
    have e2 : x % 16 = y % 16 :=
      hexDigit_inj (by omega) (by omega) h2
    have exy : x = y := by omega
    have etail : xs = ys :=
      hexBytes_inj (fun a ha => hx a (by simp [ha])) (fun a ha => hy a (by simp [ha])) h3
    rw [exy, etail]

/-- Different HMAC digests give different expected signature strings. -/
theorem expectedSignatureBytes_ne (S T B T' B' : List Nat)
    (h : hmacSHA256 S (baseString T' B') ≠ hmacSHA256 S (baseString T B)) :
    expectedSignatureBytes S T B ≠ expectedSignatureBytes S T' B' := by
  intro he
  apply h
  unfold expectedSignatureBytes at he
  have hhex := List.append_cancel_left he
  exact (hexBytes_inj (hmacSHA256_mem_lt _ _) (hmacSHA256_mem_lt _ _) hhex).symm

/-- `verifyJWT` characterisation: it returns claims exactly when the HS256 tag
matches the configured secret, the pinned issuer and audience match, and the
token is unexpired; the claims returned are the token's own payload. -/
theorem verifyJWT_some_iff (env : Env) (t : Token) (now : Nat) (p : JwtPayload) :
    verifyJWT env t now = some p ↔
      (p = t.payload ∧
       t.sig = hmacSHA256 (strBytes (jwtSecret env)) (encodePayload t.payload) ∧
       t.payload.iss = "smart-slack-bot" ∧
       t.payload.aud = "smart-slack-bot-users" ∧
       now < t.payload.exp) := by
  unfold verifyJWT
  by_cases hc : t.sig = hmacSHA256 (strBytes (jwtSecret env)) (encodePayload t.payload) ∧
      t.payload.iss = "smart-slack-bot" ∧ t.payload.aud = "smart-slack-bot-users" ∧
      now < t.payload.exp
  · rw [if_pos hc]
    simp [hc, eq_comm]
  · rw [if_neg hc]
    constructor
    · intro h
      simp at h
    · rintro ⟨_, h2, h3, h4, h5⟩
      exact absurd ⟨h2, h3, h4, h5⟩ hc

/-- `validateToken` characterisation: true exactly when the token verifies and
the referenced user exists with `isActive`. -/
theorem validateToken_true_iff (env : Env) (db : List User) (t : Token) (now : Nat) :
    validateToken env db t now = true ↔
      (verifyJWT env t now = some t.payload ∧
       ∃ u : User, findUser db t.payload.userId = some u ∧ u.isActive = true) := by
  constructor
  · intro h
    unfold validateToken at h
    by_cases he : t.payload.exp ≠ 0 ∧ t.payload.exp < now
    · rw [if_pos he] at h
      simp at h
    · rw [if_neg he] at h
      cases hv : verifyJWT env t now with
      | none => rw [hv] at h; simp at h
      | some v =>
        rw [hv] at h
        obtain ⟨rfl, _, _, _, _⟩ := (verifyJWT_some_iff env t now v).mp hv
        have h2 : (match findUser db t.payload.userId with
                   | none => false
                   | some u => u.isActive) = true := h
        cases hf : findUser db t.payload.userId with
        | none => rw [hf] at h2; simp at h2
        | some u => rw [hf] at h2; exact ⟨rfl, u, rfl, h2⟩
  · rintro ⟨hv, u, hf, hu⟩
    have hexp := ((verifyJWT_some_iff env t now t.payload).mp hv).2.2.2.2
    unfold validateToken
    rw [if_neg (by omega : ¬(t.payload.exp ≠ 0 ∧ t.payload.exp < now)), hv]
    show (match findUser db t.payload.userId with
          | none => false
          | some u => u.isActive) = true
    rw [hf]
    exact hu

/-- C1: a protected request is accepted only when the token's signature
verifies under the process-wide secret, its `exp` is not in the past, and the
referenced user exists with `isActive == true`; a token that is
cryptographically valid and unexpired but whose user is missing or inactive is
rejected by the revocation gate (the `User account is inactive or revoked`
branch) even though `verifyJWT` alone accepts it. -/
theorem c1_protected_request_conjunction (env : Env) (db : List User)
    (t : Token) (now : Nat) :
    (∀ d : JwtPayload,
      requireAuth env db (some t) now = AuthDecision.granted d →
        t.sig = hmacSHA256 (strBytes (jwtSecret env)) (encodePayload t.payload) ∧
        now < t.payload.exp ∧
        ∃ u : User, findUser db t.payload.userId = some u ∧ u.isActive = true) ∧
    (t.sig = hmacSHA256 (strBytes (jwtSecret env)) (encodePayload t.payload) →
      t.payload.iss = "smart-slack-bot" →
      t.payload.aud = "smart-slack-bot-users" →
      now < t.payload.exp →
      (∀ u : User, findUser db t.payload.userId = some u → u.isActive = false) →
      verifyJWT env t now = some t.payload ∧
      requireAuth env db (some t) now = AuthDecision.accountRevoked) := by
  constructor
  · intro d h
    have h1 : (match verifyJWT env t now with
               | none => AuthDecision.invalidToken
               | some p =>
                 if validateToken env db t now = true then AuthDecision.granted p
                 else AuthDecision.accountRevoked) = AuthDecision.granted d := h
    cases hv : verifyJWT env t now with
    | none => rw [hv] at h1; simp at h1
    | some p =>
      rw [hv] at h1
      have h2 : (if validateToken env db t now = true then AuthDecision.granted p
                 else AuthDecision.accountRevoked) = AuthDecision.granted d := h1
      by_cases hval : validateToken env db t now = true
      · obtain ⟨hv2, u, hf, hu⟩ := (validateToken_true_iff env db t now).mp hval
        obtain ⟨_, hsig, _, _, hexp⟩ := (verifyJWT_some_iff env t now t.payload).mp hv2
        exact ⟨hsig, hexp, u, hf, hu⟩
      · rw [if_neg hval] at h2
        simp at h2
  · intro h1 h2 h3 h4 h5
    have hv : verifyJWT env t now = some t.payload :=
      (verifyJWT_some_iff env t now t.payload).mpr ⟨rfl, h1, h2, h3, h4⟩
    refine ⟨hv, ?_⟩
    have hval : validateToken env db t now = false := by
      cases hb : validateToken env db t now
      · rfl
      · obtain ⟨_, u, hf, hu⟩ := (validateToken_true_iff env db t now).mp hb
        rw [h5 u hf] at hu
        exact absurd hu (by simp)
    show (match verifyJWT env t now with
          | none => AuthDecision.invalidToken
          | some p =>
            if validateToken env db t now = true then AuthDecision.granted p
            else AuthDecision.accountRevoked) = AuthDecision.accountRevoked
    rw [hv]
    show (if validateToken env db t now = true then AuthDecision.granted t.payload
          else AuthDecision.accountRevoked) = AuthDecision.accountRevoked
    simp [hval]

set_option maxRecDepth 200000 in
/-- C1 witness: a freshly issued token for the active user is granted, and the
same token against the store where the user has `isActive == false` verifies
yet is rejected as revoked. -/
theorem c1_witness :
    (tokC.sig = hmacSHA256 (strBytes (jwtSecret envFull)) (encodePayload tokC.payload) ∧
     nowC < tokC.payload.exp ∧
     ∃ u : User, findUser dbActive tokC.payload.userId = some u ∧ u.isActive = true) ∧
    verifyJWT envFull tokC nowC = some tokC.payload ∧
    requireAuth envFull dbRevoked (some tokC) nowC = AuthDecision.accountRevoked :=
  ⟨(c1_protected_request_conjunction envFull dbActive tokC nowC).1 tokC.payload rfl,
   (c1_protected_request_conjunction envFull dbRevoked tokC nowC).2 rfl rfl rfl
     (by decide)
     (fun u hu => by
       have h2 : findUser dbRevoked tokC.payload.userId = some userRevoked := rfl
       rw [h2] at hu
       injection hu with hu'
       rw [← hu']
       rfl)⟩

/-- C2: webhook signature verification accepts the claimed signature exactly
when it equals `v0=` followed by the lowercase hex of
HMAC-SHA256(secret, `v0:` + timestamp + `:` + body); any other claimed
signature is rejected, a timestamp or body whose HMAC differs is rejected, and
the comparison is the constant-time accumulate-over-all-bytes primitive, which
decides equality of equal-length buffers without short-circuiting. -/
theorem c2_hmac_signature_verification (S T B : List Nat) :
    verifyWebhookSignature S (expectedSignatureBytes S T B) T B = true ∧
    (∀ sig : List Nat, sig ≠ expectedSignatureBytes S T B →
      verifyWebhookSignature S sig T B = false) ∧
    (∀ T' B' : List Nat,
      hmacSHA256 S (baseString T' B') ≠ hmacSHA256 S (baseString T B) →
      verifyWebhookSignature S (expectedSignatureBytes S T B) T' B' = false) ∧
    (∀ a b : List Nat, a.length = b.length →
      (timingSafeEqual a b = Except.ok true ↔ a = b)) :=
  ⟨(verifyWebhook_true_iff S T B (expectedSignatureBytes S T B)).mpr rfl,
   fun sig hne => verifyWebhook_false_of_ne S T B sig hne,
   fun T' B' hne =>
     verifyWebhook_false_of_ne S T' B' (expectedSignatureBytes S T B)
       (expectedSignatureBytes_ne S T B T' B' hne),
   timingSafeEqual_ok_iff⟩

set_option maxRecDepth 200000 in
/-- C2 witness: at concrete secret, timestamp and body the correct signature
is accepted, while flipping one byte of the signature, the body, or the
timestamp is rejected. -/
theorem c2_hmac_signature_verification_witness :
    verifyWebhookSignature wSecret (expectedSignatureBytes wSecret wTs wBody) wTs wBody = true ∧
    verifyWebhookSignature wSecret sigFlipC wTs wBody = false ∧
    verifyWebhookSignature wSecret (expectedSignatureBytes wSecret wTs wBody) wTs wBodyFlip = false ∧
    verifyWebhookSignature wSecret (expectedSignatureBytes wSecret wTs wBody) wTsFlip wBody = false :=
  ⟨(c2_hmac_signature_verification wSecret wTs wBody).1,
   (c2_hmac_signature_verification wSecret wTs wBody).2.1 sigFlipC (by decide),
   (c2_hmac_signature_verification wSecret wTs wBody).2.2.1 wTs wBodyFlip (by decide),
   (c2_hmac_signature_verification wSecret wTs wBody).2.2.1 wTsFlip wBody (by decide)⟩

/-- C3: `verifyWebhookSignature` performs no timestamp freshness check — a
correctly signed request is accepted even when the claimed timestamp is at
least ten minutes older than the current time, where the specification
requires rejection as stale beyond a five-minute tolerance. -/
theorem c3_stale_timestamp_accepted (S B : List Nat) (tsVal now : Nat)
    (_hstale : tsVal + 600 ≤ now) :
    verifyWebhookSignature S
      (expectedSignatureBytes S (strBytes (toString tsVal)) B)
      (strBytes (toString tsVal)) B = true :=
  (verifyWebhook_true_iff S (strBytes (toString tsVal)) B
    (expectedSignatureBytes S (strBytes (toString tsVal)) B)).mpr rfl

/-- C3 witness: a correctly signed request whose timestamp is ten minutes
behind the current time is still accepted. -/
theorem c3_stale_timestamp_accepted_witness :
    (0 : Nat) + 600 ≤ 600 ∧
    verifyWebhookSignature wSecret
      (expectedSignatureBytes wSecret (strBytes (toString (0 : Nat))) wBody)
      (strBytes (toString (0 : Nat))) wBody = true :=
  ⟨by omega, c3_stale_timestamp_accepted wSecret wBody 0 600 (by omega)⟩

/-- C7: issuing a session token and immediately verifying it with the same
secret succeeds and returns the token's own claims, which carry the user's
`userId` and `email`, `iat = now`, `exp = iat + 24 hours`, and the pinned
issuer and audience. -/
theorem c7_token_roundtrip (env : Env) (u : User) (now : Nat) :
    verifyJWT env (generateJWT env u now) now = some (generateJWT env u now).payload ∧
    (generateJWT env u now).payload.userId = u.id ∧
    (generateJWT env u now).payload.email = u.email ∧
    (generateJWT env u now).payload.iat = now ∧
    (generateJWT env u now).payload.exp = (generateJWT env u now).payload.iat + 60 * 60 * 24 ∧
    (generateJWT env u now).payload.iss = "smart-slack-bot" ∧
    (generateJWT env u now).payload.aud = "smart-slack-bot-users" := by
  refine ⟨?_, rfl, rfl, rfl, rfl, rfl, rfl⟩
  exact (verifyJWT_some_iff env (generateJWT env u now) now _).mpr
    ⟨rfl, rfl, rfl, rfl, by show now < now + 60 * 60 * 24; omega⟩

/-- C10: for a claimed signature whose byte length differs from the 67 bytes
of the expected signature, `verifyWebhookSignature` returns `false`: the
`RangeError` thrown by `crypto.timingSafeEqual` is caught and mapped to a
rejection rather than propagated. -/
theorem c10_length_mismatch_returns_false (S T B sig : List Nat)
    (h : sig.length ≠ 67) :
    (expectedSignatureBytes S T B).length = 67 ∧
    verifyWebhookSignature S sig T B = false := by
  refine ⟨expectedSignatureBytes_length S T B, ?_⟩
  have hne : sig.length ≠ (expectedSignatureBytes S T B).length := by
    rw [expectedSignatureBytes_length]
    exact h
  unfold verifyWebhookSignature timingSafeEqual
  rw [if_neg hne]

/-- C10 witness: the empty claimed signature is rejected with `false`. -/
theorem c10_length_mismatch_returns_false_witness :
    ([] : List Nat).length ≠ 67 ∧
    verifyWebhookSignature wSecret [] wTs wBody = false :=
  ⟨by decide, (c10_length_mismatch_returns_false wSecret wTs wBody [] (by decide)).2⟩

/-- C4: the callback route performs no CSRF-state validation or consumption —
presenting the same state value in two callbacks lets both succeed, and the
handler's outcome is independent of the state value altogether, where the
specification requires the second presentation to fail with `InvalidState`. -/
theorem c4_state_replay_both_succeed (exchange : String → Option Token)
    (c : String) (st : Option String) (tok : Token)
    (hexg : exchange c = some tok) :
    processCallbacks exchange [⟨none, some c, st⟩, ⟨none, some c, st⟩] =
      [CbOutcome.success tok, CbOutcome.success tok] ∧
    (∀ st' : Option String,
      callbackHandler exchange ⟨none, some c, st'⟩ =
        callbackHandler exchange ⟨none, some c, st⟩) := by
  constructor
  · simp [processCallbacks, callbackHandler, hexg]
  · intro st'
    simp [callbackHandler]

/-- C4 witness: a concrete callback URL replayed with the same state value
succeeds both times. -/
theorem c4_state_replay_both_succeed_witness :
    processCallbacks (fun _ => some tok0)
      [⟨none, some "code1", some "state1"⟩, ⟨none, some "code1", some "state1"⟩] =
      [CbOutcome.success tok0, CbOutcome.success tok0] :=
  (c4_state_replay_both_succeed (fun _ => some tok0) "code1" (some "state1") tok0
    rfl).1

/-- C5: `checkUserPermission` ignores grant effectiveness — a grant named
`deploy` that is inactive (`isActive == false`) and expired
(`expiresAt` in the past) still makes the evaluation return `true`, where the
specification requires `false`. -/
theorem c5_grant_effectiveness_ignored :
    checkUserPermission dbStale "u5" "deploy" = true ∧
    (∀ g ∈ userStale.permissions, effectiveGrantSpec nowStale g = false) := by
  constructor
  · decide
  · decide

set_option maxRecDepth 200000 in
/-- C6: the byte string the `verifySlackSignature` middleware feeds to the
HMAC computation is `JSON.stringify(req.body)` — a re-serialisation of the
parsed body, never the raw bytes received on the wire — and differs from the
raw bytes here (one space), so the verification it launches over that
re-serialisation fails for a request correctly signed over the raw bytes; its
result is moreover discarded: the middleware calls the `async` verifier
without `await`, so every request bearing both headers passes regardless of
its signature. -/
theorem c6_reserialized_body_hashed :
    jsonParseFlat rawBodyC = some parsedBodyC ∧
    hashedBodyBytes parsedBodyC ≠ strBytes rawBodyC ∧
    verifyWebhookSignature wSecret
      (expectedSignatureBytes wSecret wTs (strBytes rawBodyC)) wTs
      (hashedBodyBytes parsedBodyC) = false ∧
    verifySlackSignature wSecret
      (some (expectedSignatureBytes wSecret wTs (strBytes rawBodyC)))
      (some wTs) parsedBodyC = MwResult.passed ∧
    (∀ sig ts : List Nat,
      verifySlackSignature wSecret (some sig) (some ts) parsedBodyC =
        MwResult.passed) := by
  refine ⟨by decide, by decide, ?_, rfl, fun _ _ => rfl⟩
  exact verifyWebhook_false_of_ne wSecret wTs (hashedBodyBytes parsedBodyC) _
    (by decide)

/-- C8: with `JWT_SECRET` unset, `initialize` still succeeds (it checks only
the Azure variables) and `generateJWT`/`verifyJWT` silently substitute the
hardcoded default `your-secret-key` at runtime, where the specification
requires a fatal startup error and no default substitution. -/
theorem c8_missing_jwt_secret_silently_defaulted :
    envNoJwt.JWT_SECRET = none ∧
    initService envNoJwt = Except.ok () ∧
    jwtSecret envNoJwt = "your-secret-key" ∧
    (∀ u : User, ∀ now : Nat,
      generateJWT envNoJwt u now = signToken "your-secret-key"
        ⟨u.id, u.email, u.displayName, u.azureId, now, now + 60 * 60 * 24,
         "smart-slack-bot", "smart-slack-bot-users"⟩) :=
  ⟨rfl, rfl, rfl, fun _ _ => rfl⟩

/-- C9 counterexample: `userStale` holds no effective grant named `deploy` and
no effective `admin` grant, yet `checkUserPermission` returns `true` for
`deploy`, contradicting the claim as stated. -/
theorem c9_effective_qualifier_fails :
    (∀ g ∈ userStale.permissions,
      ¬(effectiveGrantSpec nowStale g = true ∧ g.name = "deploy")) ∧
    (∀ g ∈ userStale.permissions,
      ¬(effectiveGrantSpec nowStale g = true ∧ g.name = "admin")) ∧
    checkUserPermission dbStale "u5" "deploy" = true := by
  refine ⟨by decide, by decide, by decide⟩

/-- C9 (amended): a user holding any grant named `admin` evaluates to `true`
for every permission name; a user with no grant named the permission and no
grant named `admin` evaluates to `false`; a userId with no User record
evaluates to `false` rather than an error. -/
theorem c9_admin_override_and_defaults (db : List User) (uid P : String) :
    (∀ u : User, findUser db uid = some u →
      (∃ g ∈ u.permissions, g.name = "admin") →
      checkUserPermission db uid P = true) ∧
    (∀ u : User, findUser db uid = some u →
      (∀ g ∈ u.permissions, g.name ≠ P) →
      (∀ g ∈ u.permissions, g.name ≠ "admin") →
      checkUserPermission db uid P = false) ∧
    (findUser db uid = none → checkUserPermission db uid P = false) := by
  refine ⟨?_, ?_, ?_⟩
  · rintro u hu ⟨g, hg, hname⟩
    unfold checkUserPermission
    rw [hu]
    show (u.permissions.any (fun p => p.name == P) ||
          u.permissions.any (fun p => p.name == "admin")) = true
    simp only [Bool.or_eq_true, List.any_eq_true, beq_iff_eq]
    exact Or.inr ⟨g, hg, hname⟩
  · intro u hu hP hA
    unfold checkUserPermission
    rw [hu]
    show (u.permissions.any (fun p => p.name == P) ||
          u.permissions.any (fun p => p.name == "admin")) = false
    simp only [Bool.or_eq_false_iff, List.any_eq_false, beq_iff_eq]
    exact ⟨fun g hg => hP g hg, fun g hg => hA g hg⟩
  · intro hn
    unfold checkUserPermission
    rw [hn]

/-- C9 witness: the admin-only user passes an unrelated permission check; a
user with only an unrelated grant fails; an unknown userId fails. -/
theorem c9_admin_override_and_defaults_witness :
    checkUserPermission dbAdmin "u9" "deploy" = true ∧
    checkUserPermission dbOther "u9b" "deploy" = false ∧
    checkUserPermission dbAdmin "ghost" "deploy" = false :=
  ⟨(c9_admin_override_and_defaults dbAdmin "u9" "deploy").1 userAdmin rfl
     ⟨⟨"admin", true, none⟩, by decide, rfl⟩,
   (c9_admin_override_and_defaults dbOther "u9b" "deploy").2.1 userOther rfl
     (by decide) (by decide),
   (c9_admin_override_and_defaults dbAdmin "ghost" "deploy").2.2 rfl⟩

end SlackBot
